import Mathlib

/-!
Verification of the streaming ASR session engine of doubao-ime-win.

The development shallowly embeds the protocol layer (`src/asr/protocol.rs`),
the session client (`src/asr/client.rs`) and the audio frame encoder
(`src/audio/encoder.rs`).  External libraries (the protobuf codec `prost`,
the JSON parser `serde_json`'s string-to-value step, the Opus codec and the
WebSocket transport) are not code of this repository; they are abstracted as
explicit function parameters or as already-decoded values, exactly at the
boundary where the repository's code calls them.
-/

namespace DoubaoIme

/-! ### JSON value model (the shape of `serde_json::Value`) -/

/-- A JSON document as `serde_json::Value` presents it to the classifier.
Numbers are modelled as integers; the classifier only ever reads booleans,
strings and integer fields. -/
inductive JValue where
  | null
  | bool (b : Bool)
  | num (n : Int)
  | str (s : String)
  | arr (xs : List JValue)
  | obj (fields : List (String × JValue))

/-- Association-list lookup used by `JValue.get`. -/
def lookupField : List (String × JValue) → String → Option JValue
  | [], _ => none
  | (k, v) :: rest, key => if k = key then some v else lookupField rest key

/-- Field lookup `Value::get(key)`, `none` on non-objects. -/
def JValue.get : JValue → String → Option JValue
  | .obj fields, key => lookupField fields key
  | _, _ => none

/-- Accessor `Value::as_bool`. -/
def JValue.as_bool : JValue → Option Bool
  | .bool b => some b
  | _ => none

/-- Accessor `Value::as_str`. -/
def JValue.as_str : JValue → Option String
  | .str s => some s
  | _ => none

/-- Accessor `Value::as_i64`: an integer number that fits in a signed 64-bit word. -/
def JValue.as_i64 : JValue → Option Int
  | .num n => if -(2 ^ 63) ≤ n ∧ n < 2 ^ 63 then some n else none
  | _ => none

/-- Accessor `Value::as_array`. -/
def JValue.as_array : JValue → Option (List JValue)
  | .arr xs => some xs
  | _ => none

/-- Rust's `as i32` cast on a signed 64-bit value: truncation to 32 bits,
two's complement. -/
def toI32 (n : Int) : Int :=
  (n + 2 ^ 31) % 2 ^ 32 - 2 ^ 31

/-! ### Response events (`ResponseType`, `AsrResponse` in protocol.rs) -/

inductive ResponseType where
  | TaskStarted
  | SessionStarted
  | SessionFinished
  | VadStart
  | InterimResult
  | FinalResult
  | Heartbeat
  | Error
  | Unknown
deriving DecidableEq, Repr

/-- The parsed ASR response delivered to the caller. -/
structure AsrResponse where
  response_type : ResponseType
  text : String
  is_final : Bool
  vad_start : Bool
  vad_finished : Bool
  packet_number : Int
  error_msg : String
  raw_json : Option JValue

/-- Rust `AsrResponse::default()`. -/
def AsrResponse.default : AsrResponse :=
  { response_type := .Unknown
    text := ""
    is_final := false
    vad_start := false
    vad_finished := false
    packet_number := -1
    error_msg := ""
    raw_json := none }

/-! ### The inner classifier (protocol.rs lines 233-307) -/

/-- Per-entry text field: `r.get("text").and_then(|v| v.as_str())`. -/
def entryText (r : JValue) : Option String :=
  (r.get "text").bind JValue.as_str

/-- Test `r.get("is_interim").and_then(|v| v.as_bool()) == Some(false)`. -/
def entryNonInterim (r : JValue) : Bool :=
  ((r.get "is_interim").bind JValue.as_bool) == some false

/-- Test `r.get("is_vad_finished").and_then(|v| v.as_bool()) == Some(true)`. -/
def entryVadFinished (r : JValue) : Bool :=
  ((r.get "is_vad_finished").bind JValue.as_bool) == some true

/-- Test `r.get("extra").and_then(|e| e.get("nonstream_result")).and_then(as_bool) == Some(true)`. -/
def entryNonstream (r : JValue) : Bool :=
  (((r.get "extra").bind (fun e => e.get "nonstream_result")).bind JValue.as_bool) == some true

/-- Mutable locals of the results scan loop. -/
structure ScanState where
  text : String
  is_interim : Bool
  vad_finished : Bool
  nonstream_result : Bool

/-- Initial scan state: `text = "", is_interim = true, vad_finished = false,
nonstream_result = false`. -/
def ScanState.init : ScanState :=
  { text := "", is_interim := true, vad_finished := false, nonstream_result := false }

/-- One iteration of the `for r in results_array` loop. -/
def scanStep (st : ScanState) (r : JValue) : ScanState :=
  let st1 := match entryText r with
    | some t => { st with text := t }
    | none => st
  let st2 := if entryNonInterim r then { st1 with is_interim := false } else st1
  let st3 := if entryVadFinished r then { st2 with vad_finished := true } else st2
  if entryNonstream r then { st3 with nonstream_result := true } else st3

/-- The `extra.vad_start` flag test of protocol.rs line 251, reading the
top-level `extra` object defaulted to `Null`. -/
def vadStartFlag (extra : JValue) : Bool :=
  (((extra.get "vad_start").bind JValue.as_bool)).getD false

/-- Classification of a successfully parsed result document
(protocol.rs lines 233-307). -/
def classifyJson (json_data : JValue) : AsrResponse :=
  let results := json_data.get "results"
  let extra := (json_data.get "extra").getD .null
  match results with
  | none =>
      let packet_number :=
        toI32 ((((extra.get "packet_number").bind JValue.as_i64)).getD (-1))
      { AsrResponse.default with
          response_type := .Heartbeat
          packet_number := packet_number
          raw_json := some json_data }
  | some results =>
      if vadStartFlag extra then
        { AsrResponse.default with
            response_type := .VadStart
            vad_start := true
            raw_json := some json_data }
      else
        let st := match results.as_array with
          | some rs => rs.foldl scanStep ScanState.init
          | none => ScanState.init
        if st.nonstream_result || (!st.is_interim && st.vad_finished) then
          { AsrResponse.default with
              response_type := .FinalResult
              text := st.text
              is_final := true
              vad_finished := st.vad_finished
              raw_json := some json_data }
        else
          { AsrResponse.default with
              response_type := .InterimResult
              text := st.text
              is_final := false
              raw_json := some json_data }

/-! ### The outer decode layer (protocol.rs lines 168-231) -/

/-- Modelled from the spec: the decoded inbound response envelope
`{message_type, result_json, status_message}` (the protobuf message
definition `proto/asr.proto` is generated at build time and is not part of
the source tree; §6 of the specification gives its fields). -/
structure ProtoResponse where
  message_type : String
  result_json : String
  status_message : String

/-- Function `parse_response` acting on the outcome of `AsrResponseProto::decode`.
`jp` is `serde_json::from_str`, abstracted: it returns a parsed document or
fails. -/
def parse_decoded (jp : String → Option JValue) (pb : ProtoResponse) : AsrResponse :=
  if pb.message_type = "TaskStarted" then
    { AsrResponse.default with response_type := .TaskStarted }
  else if pb.message_type = "SessionStarted" then
    { AsrResponse.default with response_type := .SessionStarted }
  else if pb.message_type = "SessionFinished" then
    { AsrResponse.default with response_type := .SessionFinished }
  else if pb.message_type = "TaskFailed" ∨ pb.message_type = "SessionFailed" then
    { AsrResponse.default with response_type := .Error, error_msg := pb.status_message }
  else if pb.result_json = "" then
    { AsrResponse.default with response_type := .Unknown }
  else
    match jp pb.result_json with
    | none => { AsrResponse.default with response_type := .Unknown }
    | some json_data => classifyJson json_data

/-- Function `parse_response` over raw bytes.  `decode` is `AsrResponseProto::decode`
(prost), abstracted: any byte sequence either decodes to an envelope or
yields an error message. -/
def parse_response (decode : List Nat → Except String ProtoResponse)
    (jp : String → Option JValue) (data : List Nat) : AsrResponse :=
  match decode data with
  | .error e =>
      { AsrResponse.default with
          response_type := .Error
          error_msg := "Decode error: " ++ e }
  | .ok pb => parse_decoded jp pb

/-! ### Outbound protocol messages (protocol.rs lines 53-165, constants.rs) -/

/-- Constant `FRAME_DURATION_MS` from constants.rs. -/
def FRAME_DURATION_MS : Nat := 20

/-- Audio frame position marker. -/
inductive FrameState where
  | Unspecified
  | First
  | Middle
  | Last
deriving DecidableEq, Repr

/-- Modelled from the spec: the numeric protobuf values of `FrameState`
(§6: `enum{Unspecified=0, First, Middle, Last}`); the generated protobuf
module is not part of the source tree. -/
def FrameState.toWire : FrameState → Nat
  | .Unspecified => 0
  | .First => 1
  | .Middle => 2
  | .Last => 3

/-- An outbound `AsrRequest` envelope as built by protocol.rs.  The final
protobuf byte encoding (prost) is external and not modelled; every claim is
about the envelope's fields. -/
structure AsrRequest where
  token : String
  service_name : String
  method_name : String
  payload : String
  audio_data : List Nat
  request_id : String
  frame_state : Nat

/-- Struct `SessionConfig` and its nested structs (protocol.rs lines 53-99). -/
structure AudioInfo where
  channel : Nat
  format : String
  sample_rate : Nat

structure SessionExtra where
  app_name : String
  cell_compress_rate : Nat
  did : String
  enable_asr_threepass : Bool
  enable_asr_twopass : Bool
  input_mode : String

structure SessionConfig where
  audio_info : AudioInfo
  enable_punctuation : Bool
  enable_speech_rejection : Bool
  extra : SessionExtra

/-- Rust `SessionConfig::new(device_id)`. -/
def SessionConfig.new (device_id : String) : SessionConfig :=
  { audio_info := { channel := 1, format := "speech_opus", sample_rate := 16000 }
    enable_punctuation := true
    enable_speech_rejection := false
    extra :=
      { app_name := "com.android.chrome"
        cell_compress_rate := 8
        did := device_id
        enable_asr_threepass := true
        enable_asr_twopass := true
        input_mode := "tool" } }

def boolJson (b : Bool) : String := if b then "true" else "false"

/-- Serialization `serde_json::to_string(config)`: fields serialize in declaration order
with no whitespace (JSON string escaping of the device id is not modelled;
device ids are plain hex strings). -/
def SessionConfig.toJsonString (c : SessionConfig) : String :=
  "\x7b\"audio_info\":\x7b\"channel\":" ++ toString c.audio_info.channel ++
  ",\"format\":\"" ++ c.audio_info.format ++
  "\",\"sample_rate\":" ++ toString c.audio_info.sample_rate ++
  "\x7d,\"enable_punctuation\":" ++ boolJson c.enable_punctuation ++
  ",\"enable_speech_rejection\":" ++ boolJson c.enable_speech_rejection ++
  ",\"extra\":\x7b\"app_name\":\"" ++ c.extra.app_name ++
  "\",\"cell_compress_rate\":" ++ toString c.extra.cell_compress_rate ++
  ",\"did\":\"" ++ c.extra.did ++
  "\",\"enable_asr_threepass\":" ++ boolJson c.extra.enable_asr_threepass ++
  ",\"enable_asr_twopass\":" ++ boolJson c.extra.enable_asr_twopass ++
  ",\"input_mode\":\"" ++ c.extra.input_mode ++ "\"\x7d\x7d"

/-- Builder `build_start_task`. -/
def build_start_task (request_id token : String) : AsrRequest :=
  { token := token
    service_name := "ASR"
    method_name := "StartTask"
    payload := ""
    audio_data := []
    request_id := request_id
    frame_state := FrameState.Unspecified.toWire }

/-- Builder `build_start_session`. -/
def build_start_session (request_id token : String) (config : SessionConfig) : AsrRequest :=
  { token := token
    service_name := "ASR"
    method_name := "StartSession"
    payload := config.toJsonString
    audio_data := []
    request_id := request_id
    frame_state := FrameState.Unspecified.toWire }

/-- Builder `build_finish_session`. -/
def build_finish_session (request_id token : String) : AsrRequest :=
  { token := token
    service_name := "ASR"
    method_name := "FinishSession"
    payload := ""
    audio_data := []
    request_id := request_id
    frame_state := FrameState.Unspecified.toWire }

/-- The TaskRequest metadata document
`serde_json::json!({"extra": {}, "timestamp_ms": t})` serialized. -/
def taskPayload (timestamp_ms : Nat) : String :=
  "\x7b\"extra\":\x7b\x7d,\"timestamp_ms\":" ++ toString timestamp_ms ++ "\x7d"

/-- Builder `build_task_request`: the token is left empty for audio frames. -/
def build_task_request (request_id : String) (audio_data : List Nat)
    (frame_state : FrameState) (timestamp_ms : Nat) : AsrRequest :=
  { token := ""
    service_name := "ASR"
    method_name := "TaskRequest"
    payload := taskPayload timestamp_ms
    audio_data := audio_data
    request_id := request_id
    frame_state := frame_state.toWire }

/-! ### The session client (client.rs lines 76-188) -/

/-- Unsigned 64-bit modulus for the timestamp arithmetic
(`start_time + frame_index * FRAME_DURATION_MS as u64` on `u64`). -/
def U64_MOD : Nat := 2 ^ 64

/-- The derived per-frame timestamp, with u64 wraparound made explicit. -/
def frameTimestamp (start_time frame_index : Nat) : Nat :=
  (start_time + frame_index * FRAME_DURATION_MS) % U64_MOD

/-- The `while let Some(opus_frame) = audio_rx.recv()` loop of the outbound
pump (client.rs lines 112-138): one TaskRequest per queued frame, index 0
marked First, later indices Middle, timestamps derived from the loop
counter. -/
def sendFrames (request_id : String) (start_time : Nat) :
    Nat → List (List Nat) → List AsrRequest
  | _, [] => []
  | i, f :: rest =>
      build_task_request request_id f (if i = 0 then .First else .Middle)
          (frameTimestamp start_time i) ::
        sendFrames request_id start_time (i + 1) rest

/-- The whole outbound pump (client.rs lines 107-159): drains the frame
queue, then — only when at least one frame was sent — transmits the
synthetic 100-zero-byte Last frame followed by FinishSession. -/
def outboundPump (request_id token : String) (start_time : Nat)
    (frames : List (List Nat)) : List AsrRequest :=
  sendFrames request_id start_time 0 frames ++
    (if frames.length > 0 then
      [build_task_request request_id (List.replicate 100 0) .Last
          (frameTimestamp start_time frames.length),
        build_finish_session request_id token]
    else [])

/-- One item produced by `read.next()` on the WebSocket stream; the end of
the stream (`None`) is the end of the list. -/
inductive WsItem where
  | binary (data : List Nat)
  | otherMsg
  | errItem

/-- The inbound pump (client.rs lines 163-185): returns the events forwarded
to the caller's queue and the unread remainder of the stream.  `Some(Err(_))`
ends the `while let` loop; non-binary messages are skipped; Error and
SessionFinished are forwarded once and stop the loop; Heartbeat is dropped;
everything else is forwarded. -/
def recvPump (decode : List Nat → Except String ProtoResponse)
    (jp : String → Option JValue) :
    List WsItem → List AsrResponse × List WsItem
  | [] => ([], [])
  | .errItem :: rest => ([], rest)
  | .otherMsg :: rest => recvPump decode jp rest
  | .binary data :: rest =>
      let response := parse_response decode jp data
      if response.response_type = .Error ∨ response.response_type = .SessionFinished then
        ([response], rest)
      else if response.response_type = .Heartbeat then
        recvPump decode jp rest
      else
        (response :: (recvPump decode jp rest).1, (recvPump decode jp rest).2)

/-- One handshake wait (client.rs lines 82-88 and 97-103): consume one stream
item; a binary envelope classified Error aborts with the stage-prefixed
server message; any other item (or a closed stream) lets the client
proceed. -/
def handshakeRead (decode : List Nat → Except String ProtoResponse)
    (jp : String → Option JValue) (stage : String) :
    List WsItem → Except String (List WsItem)
  | [] => .ok []
  | .binary data :: rest =>
      let response := parse_response decode jp data
      if response.response_type = .Error then
        .error (stage ++ " failed: " ++ response.error_msg)
      else .ok rest
  | _ :: rest => .ok rest

/-- Method `AsrClient::start_realtime` (client.rs lines 42-188) as a function of the
queued audio frames and of the inbound stream: send StartTask, wait one
reply, send StartSession, wait one reply, then run the outbound and inbound
pumps.  Returns the transmitted envelope sequence and the caller-visible
event sequence, or the handshake failure. -/
def start_realtime (decode : List Nat → Except String ProtoResponse)
    (jp : String → Option JValue) (request_id token device_id : String)
    (start_time : Nat) (frames : List (List Nat)) (inbound : List WsItem) :
    Except String (List AsrRequest × List AsrResponse) :=
  match handshakeRead decode jp "StartTask" inbound with
  | .error e => .error e
  | .ok rest1 =>
      match handshakeRead decode jp "StartSession" rest1 with
      | .error e => .error e
      | .ok rest2 =>
          .ok ([build_start_task request_id token,
                build_start_session request_id token (SessionConfig.new device_id)]
              ++ outboundPump request_id token start_time frames,
            (recvPump decode jp rest2).1)

/-! ### The Opus frame encoder (encoder.rs) -/

/-- The encoder's configuration fields (the opus codec state itself is
external). -/
structure OpusEncoder where
  sample_rate : Nat
  channels : Nat
  frame_size : Nat

/-- Constructor `OpusEncoder::new`: rejects channel counts other than 1 or 2; the frame
size is 20 ms of samples. -/
def OpusEncoder.new (sample_rate channels : Nat) : Except String OpusEncoder :=
  if channels = 1 ∨ channels = 2 then
    .ok { sample_rate := sample_rate, channels := channels
          frame_size := sample_rate * 20 / 1000 }
  else .error ("Invalid channel count: " ++ toString channels)

/-- Rust `i16::from_le_bytes([b0, b1])` as a mathematical integer. -/
def i16FromLeBytes (b0 b1 : Nat) : Int :=
  let u := b0 % 256 + 256 * (b1 % 256)
  if u < 32768 then (u : Int) else (u : Int) - 65536

/-- Conversion `pcm_data.chunks_exact(2).map(i16::from_le_bytes)`: pairs of bytes become
signed samples; a trailing odd byte is dropped. -/
def pcmToSamples : List Nat → List Int
  | b0 :: b1 :: rest => i16FromLeBytes b0 b1 :: pcmToSamples rest
  | _ => []

/-- Method `OpusEncoder::encode` (encoder.rs lines 43-68).  `codec` is the external
libopus encode call on exactly the samples handed to it (the 4000-byte output
buffer and truncation are folded into its result). -/
def OpusEncoder.encode (codec : List Int → Except String (List Nat))
    (enc : OpusEncoder) (pcm_data : List Nat) : Except String (List Nat) :=
  let samples := pcmToSamples pcm_data
  let expected_samples := enc.frame_size * enc.channels
  if samples.length < expected_samples then
    .error ("Not enough samples: got " ++ toString samples.length ++
      ", expected " ++ toString expected_samples)
  else
    match codec (samples.take expected_samples) with
    | .error e => .error ("Opus encode error: " ++ e)
    | .ok out => .ok out

/-! ### Lemmas about the results scan loop -/

theorem scanStep_nonstream (st : ScanState) (r : JValue) :
    (scanStep st r).nonstream_result = (st.nonstream_result || entryNonstream r) := by
  unfold scanStep
  cases h : entryText r <;>
    cases h2 : entryNonInterim r <;>
      cases h3 : entryVadFinished r <;>
        cases h4 : entryNonstream r <;> simp [h, h2, h3, h4]

theorem scanStep_interim (st : ScanState) (r : JValue) :
    (scanStep st r).is_interim = (st.is_interim && !entryNonInterim r) := by
  unfold scanStep
  cases h : entryText r <;>
    cases h2 : entryNonInterim r <;>
      cases h3 : entryVadFinished r <;>
        cases h4 : entryNonstream r <;> simp [h, h2, h3, h4]

theorem scanStep_vad (st : ScanState) (r : JValue) :
    (scanStep st r).vad_finished = (st.vad_finished || entryVadFinished r) := by
  unfold scanStep
  cases h : entryText r <;>
    cases h2 : entryNonInterim r <;>
      cases h3 : entryVadFinished r <;>
        cases h4 : entryNonstream r <;> simp [h, h2, h3, h4]

theorem scanStep_text (st : ScanState) (r : JValue) :
    (scanStep st r).text = (entryText r).getD st.text := by
  unfold scanStep
  cases h : entryText r <;>
    cases h2 : entryNonInterim r <;>
      cases h3 : entryVadFinished r <;>
        cases h4 : entryNonstream r <;> simp [h, h2, h3, h4]

theorem foldScan_nonstream (rs : List JValue) (st : ScanState) :
    (rs.foldl scanStep st).nonstream_result =
      (st.nonstream_result || rs.any entryNonstream) := by
  induction rs generalizing st with
  | nil => simp
  | cons r rest ih => simp [ih, scanStep_nonstream, Bool.or_assoc]

theorem foldScan_interim (rs : List JValue) (st : ScanState) :
    (rs.foldl scanStep st).is_interim =
      (st.is_interim && !rs.any entryNonInterim) := by
  induction rs generalizing st with
  | nil => simp
  | cons r rest ih => simp [ih, scanStep_interim, Bool.and_assoc]

theorem foldScan_vad (rs : List JValue) (st : ScanState) :
    (rs.foldl scanStep st).vad_finished =
      (st.vad_finished || rs.any entryVadFinished) := by
  induction rs generalizing st with
  | nil => simp
  | cons r rest ih => simp [ih, scanStep_vad, Bool.or_assoc]

/-- The text accumulated by the scan is the text of the last entry carrying
one (found by searching the reversed list), defaulting to the initial
state's text. -/
theorem foldScan_text (rs : List JValue) (st : ScanState) :
    (rs.foldl scanStep st).text =
      (rs.reverse.findSome? entryText).getD st.text := by
  induction rs generalizing st with
  | nil => simp
  | cons r rest ih =>
      simp only [List.foldl_cons, ih, List.reverse_cons, List.findSome?_append]
      cases h : rest.reverse.findSome? entryText with
      | some t => simp [h, Option.orElse]
      | none =>
          simp only [h, Option.orElse, scanStep_text, List.findSome?_cons,
            List.findSome?_nil]
          cases entryText r <;> rfl

/-- The scan state produced for a `results` value (an empty scan when the
value is not an array). -/
def scanOf (res : JValue) : ScanState :=
  (res.as_array.getD []).foldl scanStep ScanState.init

/-- Evaluating `classifyJson` on a document with a `results` key and no `vad_start`
flag reduces to the final/interim decision over the scan state. -/
theorem classifyJson_eq_of_results (doc res : JValue)
    (hres : doc.get "results" = some res)
    (hvad : vadStartFlag ((doc.get "extra").getD .null) = false) :
    classifyJson doc =
      if (scanOf res).nonstream_result ||
          (!(scanOf res).is_interim && (scanOf res).vad_finished) then
        { AsrResponse.default with
            response_type := .FinalResult
            text := (scanOf res).text
            is_final := true
            vad_finished := (scanOf res).vad_finished
            raw_json := some doc }
      else
        { AsrResponse.default with
            response_type := .InterimResult
            text := (scanOf res).text
            is_final := false
            raw_json := some doc } := by
  unfold classifyJson
  rw [hres]
  simp only [hvad, Bool.false_eq_true, if_false]
  cases h : res.as_array with
  | some rs => simp [scanOf, h]
  | none => simp [scanOf, h]

/-- The entries the classifier scans: the `results` value as an array, or no
entries when it is not one. -/
def resultEntries (res : JValue) : List JValue :=
  res.as_array.getD []

/-- The specification's finality condition: some entry sets the non-stream
completion flag, or some entry is marked non-interim and some entry marks
VAD finished. -/
def specFinalCond (res : JValue) : Prop :=
  (∃ r ∈ resultEntries res, entryNonstream r = true) ∨
    ((∃ r ∈ resultEntries res, entryNonInterim r = true) ∧
      (∃ r ∈ resultEntries res, entryVadFinished r = true))

/-- C3 (amended): for a result document with a `results` key whose top-level
`extra` does not set `vad_start`, the classifier emits FinalResult exactly
when some entry sets the non-stream completion flag, or some entry is marked
non-interim and some entry marks VAD finished; otherwise it emits
InterimResult. -/
theorem claim_C3_amended (doc res : JValue)
    (hres : doc.get "results" = some res)
    (hvad : vadStartFlag ((doc.get "extra").getD .null) = false) :
    ((classifyJson doc).response_type = ResponseType.FinalResult ↔ specFinalCond res) ∧
    ((classifyJson doc).response_type = ResponseType.FinalResult ∨
      (classifyJson doc).response_type = ResponseType.InterimResult) := by
  rw [classifyJson_eq_of_results doc res hres hvad]
  have hscan : scanOf res = (resultEntries res).foldl scanStep ScanState.init := rfl
  have hns : (scanOf res).nonstream_result = (resultEntries res).any entryNonstream := by
    rw [hscan, foldScan_nonstream]; simp [ScanState.init]
  have hin : (scanOf res).is_interim = !(resultEntries res).any entryNonInterim := by
    rw [hscan, foldScan_interim]; simp [ScanState.init]
  have hv : (scanOf res).vad_finished = (resultEntries res).any entryVadFinished := by
    rw [hscan, foldScan_vad]; simp [ScanState.init]
  rw [hns, hin, hv, Bool.not_not]
  cases hb : ((resultEntries res).any entryNonstream ||
      ((resultEntries res).any entryNonInterim && (resultEntries res).any entryVadFinished)) with
  | true =>
      simp only [hb, if_true]
      have hP : specFinalCond res := by
        simp only [Bool.or_eq_true, Bool.and_eq_true, List.any_eq_true] at hb
        unfold specFinalCond
        tauto
      exact ⟨⟨fun _ => hP, fun _ => by trivial⟩, Or.inl (by trivial)⟩
  | false =>
      simp only [hb, Bool.false_eq_true, if_false]
      constructor
      · constructor
        · intro h; exact absurd h (by simp)
        · intro h
          exfalso
          simp only [Bool.or_eq_false_iff, Bool.and_eq_false_iff, List.any_eq_false] at hb
          rcases h with h | ⟨⟨r1, hr1, h1⟩, ⟨r2, hr2, h2⟩⟩
          · rcases h with ⟨r, hr, hflag⟩
            exact absurd hflag (by simp [hb.1 r hr])
          · rcases hb.2 with hni | hvf
            · exact absurd h1 (by simp [hni r1 hr1])
            · exact absurd h2 (by simp [hvf r2 hr2])
      · exact Or.inr (by trivial)

/-- The concrete document refuting C3 as frozen: it has a `results` key, its
entries set no finality flag, yet the classifier emits VadStart — neither
FinalResult nor InterimResult — because the top-level `extra` sets
`vad_start`. -/
def vadStartDoc : JValue :=
  .obj [("results", .arr []), ("extra", .obj [("vad_start", .bool true)])]

/-- C3 counterexample: `{"results":[],"extra":{"vad_start":true}}` contains
a `results` key and no entry with a finality marker, so the frozen claim
demands InterimResult; the classifier emits VadStart instead. -/
theorem claim_C3_counterexample :
    (classifyJson vadStartDoc).response_type = ResponseType.VadStart ∧
    (classifyJson vadStartDoc).response_type ≠ ResponseType.InterimResult ∧
    (classifyJson vadStartDoc).response_type ≠ ResponseType.FinalResult := by
  refine ⟨rfl, ?_, ?_⟩ <;> simp [vadStartDoc, classifyJson, JValue.get, lookupField,
    vadStartFlag, JValue.as_bool]

/-- C8 (amended): a result document with a `results` array of at least two
entries and no finality markers, whose top-level `extra` does not set
`vad_start`, classifies as InterimResult, and its text is the text field of
the last entry that has one (later entries overwrite earlier ones). -/
theorem claim_C8 (doc : JValue) (rs : List JValue)
    (hres : doc.get "results" = some (.arr rs))
    (hvad : vadStartFlag ((doc.get "extra").getD .null) = false)
    (_hlen : 2 ≤ rs.length)
    (hflags : ∀ r ∈ rs, entryNonstream r = false ∧ entryNonInterim r = false ∧
      entryVadFinished r = false) :
    (classifyJson doc).response_type = ResponseType.InterimResult ∧
    (∀ t, rs.reverse.findSome? entryText = some t → (classifyJson doc).text = t) := by
  rw [classifyJson_eq_of_results doc (.arr rs) hres hvad]
  have hentries : resultEntries (.arr rs) = rs := rfl
  have hscan : scanOf (.arr rs) = rs.foldl scanStep ScanState.init := rfl
  have hany_ns : rs.any entryNonstream = false := by
    simp only [List.any_eq_false]
    intro r hr; simp [(hflags r hr).1]
  have hany_in : rs.any entryNonInterim = false := by
    simp only [List.any_eq_false]
    intro r hr; simp [(hflags r hr).2.1]
  have hcond :
      ((scanOf (.arr rs)).nonstream_result ||
        (!(scanOf (.arr rs)).is_interim && (scanOf (.arr rs)).vad_finished)) = false := by
    simp [hscan, foldScan_nonstream, foldScan_interim, ScanState.init, hany_ns, hany_in]
  simp only [hcond, Bool.false_eq_true, if_false]
  refine ⟨by trivial, ?_⟩
  intro t ht
  simp [hscan, foldScan_text, ht]

/-- A multi-entry result document with no finality markers on any entry but
with the top-level `extra` VAD-start marker set. -/
def vadStartMultiDoc : JValue :=
  .obj [("results", .arr [.obj [("text", .str "a")], .obj [("text", .str "b")]]),
    ("extra", .obj [("vad_start", .bool true)])]

/-- C8 counterexample:
`{"results":[{"text":"a"},{"text":"b"}],"extra":{"vad_start":true}}` has a
multi-entry `results` array and no finality markers, so the frozen claim
demands InterimResult with text "b"; the classifier emits VadStart instead,
because the top-level `extra` VAD-start marker pre-empts the scan. -/
theorem claim_C8_counterexample :
    (classifyJson vadStartMultiDoc).response_type = ResponseType.VadStart ∧
    (classifyJson vadStartMultiDoc).response_type ≠ ResponseType.InterimResult ∧
    entryNonstream (.obj [("text", .str "a")]) = false ∧
    entryNonInterim (.obj [("text", .str "a")]) = false ∧
    entryVadFinished (.obj [("text", .str "a")]) = false ∧
    entryNonstream (.obj [("text", .str "b")]) = false ∧
    entryNonInterim (.obj [("text", .str "b")]) = false ∧
    entryVadFinished (.obj [("text", .str "b")]) = false := by
  refine ⟨rfl, ?_, rfl, rfl, rfl, rfl, rfl, rfl⟩
  simp [vadStartMultiDoc, classifyJson, JValue.get, lookupField, vadStartFlag,
    JValue.as_bool]

/-- The entry of the spec's FinalResult example document. -/
def finalEntry : JValue :=
  .obj [("text", .str "hello"), ("is_interim", .bool false), ("is_vad_finished", .bool true)]

/-- Document `{"results":[{"text":"hello","is_interim":false,"is_vad_finished":true}]}`. -/
def finalDoc : JValue := .obj [("results", .arr [finalEntry])]

/-- Witness for C3 (amended) at the spec's example document. -/
theorem claim_C3_witness :
    (classifyJson finalDoc).response_type = ResponseType.FinalResult :=
  (claim_C3_amended finalDoc (.arr [finalEntry]) rfl rfl).1.mpr
    (Or.inr
      ⟨⟨finalEntry, by simp [resultEntries, JValue.as_array], rfl⟩,
        ⟨finalEntry, by simp [resultEntries, JValue.as_array], rfl⟩⟩)

/-- The entries of the spec's last-text-wins example. -/
def interimEntries : List JValue :=
  [.obj [("text", .str "he")], .obj [("text", .str "hello")]]

/-- Document `{"results":[{"text":"he"},{"text":"hello"}]}`. -/
def interimDoc : JValue := .obj [("results", .arr interimEntries)]

/-- Witness for C8 at the spec's example: InterimResult with text "hello". -/
theorem claim_C8_witness :
    (classifyJson interimDoc).response_type = ResponseType.InterimResult ∧
    (classifyJson interimDoc).text = "hello" := by
  have h := claim_C8 interimDoc interimEntries rfl rfl (by decide)
    (by
      intro r hr
      simp only [interimEntries, List.mem_cons, List.not_mem_nil, or_false] at hr
      rcases hr with rfl | rfl <;> exact ⟨rfl, rfl, rfl⟩)
  exact ⟨h.1, h.2 "hello" rfl⟩

/-! ### C7: totality of `parse_response` and the decode-failure events -/

/-- C7: `parse_response` is total by construction (it is a Lean function into
`AsrResponse`); a byte sequence whose outer protobuf decode fails yields an
Error event carrying the decode message, and — once the envelope falls
through the recognized message types — a non-empty `result_json` that the
JSON parser rejects yields an Unknown event. -/
theorem claim_C7 (decode : List Nat → Except String ProtoResponse)
    (jp : String → Option JValue) (data : List Nat) :
    (∀ e, decode data = .error e →
      parse_response decode jp data =
        { AsrResponse.default with
            response_type := .Error
            error_msg := "Decode error: " ++ e }) ∧
    (∀ pb, decode data = .ok pb →
      pb.message_type ∉
        ["TaskStarted", "SessionStarted", "SessionFinished", "TaskFailed", "SessionFailed"] →
      pb.result_json ≠ "" → jp pb.result_json = none →
      parse_response decode jp data =
        { AsrResponse.default with response_type := .Unknown }) := by
  constructor
  · intro e he
    simp [parse_response, he]
  · intro pb hpb hmt hjson hjp
    simp only [List.mem_cons, List.not_mem_nil, or_false, not_or] at hmt
    obtain ⟨h1, h2, h3, h4, h5⟩ := hmt
    simp [parse_response, hpb, parse_decoded, h1, h2, h3, h4, h5, hjson, hjp]

/-- Witness for C7: a decoder that always fails, and a decoder returning an
unrecognized envelope with unparseable JSON. -/
theorem claim_C7_witness :
    parse_response (fun _ => .error "bad") (fun _ => none) [] =
      { AsrResponse.default with
          response_type := .Error
          error_msg := "Decode error: " ++ "bad" } ∧
    parse_response (fun _ => .ok ⟨"", "garbage", ""⟩) (fun _ => none) [] =
      { AsrResponse.default with response_type := .Unknown } :=
  ⟨(claim_C7 (fun _ => .error "bad") (fun _ => none) []).1 "bad" rfl,
    (claim_C7 (fun _ => .ok ⟨"", "garbage", ""⟩) (fun _ => none) []).2
      ⟨"", "garbage", ""⟩ rfl (by simp) (by simp) rfl⟩

/-! ### C5 and C6: the inbound pump -/

/-- C5: a binary envelope classified Error or SessionFinished is forwarded
exactly once and the pump stops with the rest of the stream unread; an
envelope classified as anything else does not stop the pump — the remainder
left unread is exactly what processing the rest of the stream leaves. -/
theorem claim_C5 (decode : List Nat → Except String ProtoResponse)
    (jp : String → Option JValue) (data : List Nat) (rest : List WsItem) :
    (((parse_response decode jp data).response_type = ResponseType.Error ∨
      (parse_response decode jp data).response_type = ResponseType.SessionFinished) →
      recvPump decode jp (.binary data :: rest) = ([parse_response decode jp data], rest)) ∧
    ((parse_response decode jp data).response_type ≠ ResponseType.Error →
      (parse_response decode jp data).response_type ≠ ResponseType.SessionFinished →
      (recvPump decode jp (.binary data :: rest)).2 = (recvPump decode jp rest).2) := by
  constructor
  · intro h
    simp [recvPump, h]
  · intro h1 h2
    have hcond :
        ¬((parse_response decode jp data).response_type = ResponseType.Error ∨
          (parse_response decode jp data).response_type = ResponseType.SessionFinished) := by
      rintro (h | h) <;> [exact h1 h; exact h2 h]
    by_cases hh : (parse_response decode jp data).response_type = ResponseType.Heartbeat
    · simp [recvPump, hcond, hh]
    · simp [recvPump, hcond, hh]

/-- Witness for C5: a stream whose first envelope decodes to SessionFinished
followed by one more item; the pump forwards it once and leaves the rest
unread. -/
theorem claim_C5_witness :
    recvPump (fun _ => .ok ⟨"SessionFinished", "", ""⟩) (fun _ => none)
        (.binary [] :: [.otherMsg]) =
      ([parse_response (fun _ => .ok ⟨"SessionFinished", "", ""⟩) (fun _ => none) []],
        [.otherMsg]) :=
  (claim_C5 (fun _ => .ok ⟨"SessionFinished", "", ""⟩) (fun _ => none) [] [.otherMsg]).1
    (Or.inr rfl)

/-- C6: Heartbeat-classified events never appear among the events the
inbound pump forwards to the caller. -/
theorem claim_C6 (decode : List Nat → Except String ProtoResponse)
    (jp : String → Option JValue) (stream : List WsItem) (r : AsrResponse)
    (hr : r ∈ (recvPump decode jp stream).1) :
    r.response_type ≠ ResponseType.Heartbeat := by
  induction stream with
  | nil => simp [recvPump] at hr
  | cons item rest ih =>
      cases item with
      | errItem => simp [recvPump] at hr
      | otherMsg => exact ih (by simpa [recvPump] using hr)
      | binary data =>
          by_cases hterm :
            (parse_response decode jp data).response_type = ResponseType.Error ∨
              (parse_response decode jp data).response_type = ResponseType.SessionFinished
          · simp only [recvPump, hterm, if_true, List.mem_singleton] at hr
            subst hr
            rcases hterm with h | h <;> simp [h]
          · by_cases hh :
              (parse_response decode jp data).response_type = ResponseType.Heartbeat
            · exact ih (by simpa [recvPump, hterm, hh] using hr)
            · have := hr
              simp only [recvPump, hterm, if_false, hh, List.mem_cons] at this
              rcases this with rfl | hmem
              · exact hh
              · exact ih hmem

/-- Witness for C6 on a concrete one-envelope stream: the forwarded
TaskStarted event is not a Heartbeat. -/
theorem claim_C6_witness :
    (parse_response (fun _ => .ok ⟨"TaskStarted", "", ""⟩) (fun _ => none)
        []).response_type ≠ ResponseType.Heartbeat :=
  claim_C6 (fun _ => .ok ⟨"TaskStarted", "", ""⟩) (fun _ => none) [.binary []]
    (parse_response (fun _ => .ok ⟨"TaskStarted", "", ""⟩) (fun _ => none) [])
    (by simp [recvPump, parse_response, parse_decoded])

/-! ### C4: the handshake error paths -/

/-- A stream item the handshake wait lets through: anything that is not a
binary envelope classified Error. -/
def handshakePass (decode : List Nat → Except String ProtoResponse)
    (jp : String → Option JValue) : WsItem → Prop
  | .binary d => (parse_response decode jp d).response_type ≠ ResponseType.Error
  | _ => True

theorem handshakeRead_pass (decode : List Nat → Except String ProtoResponse)
    (jp : String → Option JValue) (stage : String) (item : WsItem) (rest : List WsItem)
    (h : handshakePass decode jp item) :
    handshakeRead decode jp stage (item :: rest) = .ok rest := by
  cases item with
  | binary d =>
      simp only [handshakeRead]
      rw [if_neg h]
  | otherMsg => rfl
  | errItem => rfl

/-- C4: a StartTask reply classified Error makes `start_realtime` return the
failure `StartTask failed: <server message>` without advancing; after a
passing first reply, a StartSession reply classified Error likewise returns
`StartSession failed: <server message>`.  In each case exactly one stream
item is consumed per handshake step. -/
theorem claim_C4 (decode : List Nat → Except String ProtoResponse)
    (jp : String → Option JValue) (rid tok did : String) (start : Nat)
    (frames : List (List Nat)) (data : List Nat) (rest : List WsItem) :
    ((parse_response decode jp data).response_type = ResponseType.Error →
      start_realtime decode jp rid tok did start frames (.binary data :: rest) =
        .error ("StartTask failed: " ++ (parse_response decode jp data).error_msg)) ∧
    (∀ item1, handshakePass decode jp item1 →
      (parse_response decode jp data).response_type = ResponseType.Error →
      start_realtime decode jp rid tok did start frames (item1 :: .binary data :: rest) =
        .error ("StartSession failed: " ++ (parse_response decode jp data).error_msg)) := by
  constructor
  · intro h
    simp [start_realtime, handshakeRead, h]
  · intro item1 hpass h
    unfold start_realtime
    rw [handshakeRead_pass decode jp "StartTask" item1 (.binary data :: rest) hpass]
    simp [handshakeRead, h]

/-- Witness for C4: a server that rejects StartTask with message "boom". -/
theorem claim_C4_witness :
    start_realtime (fun _ => .ok ⟨"TaskFailed", "", "boom"⟩) (fun _ => none)
        "r" "t" "d" 0 [] [.binary []] =
      .error ("StartTask failed: " ++
        (parse_response (fun _ => .ok ⟨"TaskFailed", "", "boom"⟩)
          (fun _ => none) []).error_msg) :=
  (claim_C4 (fun _ => .ok ⟨"TaskFailed", "", "boom"⟩) (fun _ => none)
    "r" "t" "d" 0 [] [] []).1 rfl

/-! ### C1: the closing Last frame and FinishSession -/

theorem sendFrames_countP_zero (rid : String) (start k : Nat)
    (frames : List (List Nat)) (p : AsrRequest → Bool)
    (hp : ∀ f (fs : FrameState), fs ≠ FrameState.Last → ∀ ts,
      p (build_task_request rid f fs ts) = false) :
    (sendFrames rid start k frames).countP p = 0 := by
  induction frames generalizing k with
  | nil => simp [sendFrames]
  | cons f rest ih =>
      have hne : (if k = 0 then FrameState.First else FrameState.Middle) ≠ FrameState.Last := by
        split <;> simp
      simp [sendFrames, List.countP_cons, ih, hp f _ hne]

/-- C1 (amended): when at least one real frame was produced before queue
closure, the outbound pump transmits the real frames and then exactly one
synthetic Last-marked frame (100 zero bytes) followed by exactly one
FinishSession envelope; when zero real frames were produced it transmits
nothing at all — neither a Last frame nor a FinishSession. -/
theorem claim_C1_amended (rid tok : String) (start : Nat) (frames : List (List Nat)) :
    (frames ≠ [] →
      outboundPump rid tok start frames =
        sendFrames rid start 0 frames ++
          [build_task_request rid (List.replicate 100 0) FrameState.Last
              (frameTimestamp start frames.length),
            build_finish_session rid tok] ∧
      (outboundPump rid tok start frames).countP
          (fun e => e.frame_state == FrameState.Last.toWire) = 1 ∧
      (outboundPump rid tok start frames).countP
          (fun e => e.method_name == "FinishSession") = 1) ∧
    (frames = [] → outboundPump rid tok start frames = []) := by
  constructor
  · intro hne
    have hlen : frames.length > 0 := List.length_pos.mpr hne
    have heq : outboundPump rid tok start frames =
        sendFrames rid start 0 frames ++
          [build_task_request rid (List.replicate 100 0) FrameState.Last
              (frameTimestamp start frames.length),
            build_finish_session rid tok] := by
      simp [outboundPump, hlen]
    refine ⟨heq, ?_, ?_⟩
    · rw [heq, List.countP_append]
      rw [sendFrames_countP_zero rid start 0 frames _
        (fun f fs hfs ts => by cases fs <;> simp_all [build_task_request, FrameState.toWire])]
      simp [List.countP_cons, build_task_request, build_finish_session, FrameState.toWire]
    · rw [heq, List.countP_append]
      rw [sendFrames_countP_zero rid start 0 frames _
        (fun f fs hfs ts => by simp [build_task_request])]
      simp [List.countP_cons, build_task_request, build_finish_session]
  · intro he
    subst he
    rfl

/-- C1 counterexample: a session whose audio queue closes after zero frames.
The outbound pump transmits nothing: no Last-marked frame and no
FinishSession envelope, contradicting the frozen claim's "even when zero
real frames were produced". -/
theorem claim_C1_counterexample :
    outboundPump "r" "t" 0 [] = [] ∧
    (outboundPump "r" "t" 0 []).countP (fun e => e.method_name == "FinishSession") = 0 ∧
    (outboundPump "r" "t" 0 []).countP (fun e => e.frame_state == FrameState.Last.toWire) = 0 :=
  ⟨rfl, rfl, rfl⟩

/-- Witness for C1 (amended) at a one-frame session and an empty session. -/
theorem claim_C1_witness :
    outboundPump "r" "t" 0 [[5]] =
      sendFrames "r" 0 0 [[5]] ++
        [build_task_request "r" (List.replicate 100 0) FrameState.Last (frameTimestamp 0 1),
          build_finish_session "r" "t"] ∧
    outboundPump "r" "t" 100 [] = [] :=
  ⟨((claim_C1_amended "r" "t" 0 [[5]]).1 (by simp)).1,
    (claim_C1_amended "r" "t" 100 []).2 rfl⟩

/-! ### C2: the complete transmitted envelope sequence -/

/-- The frame loop as an indexed map over the queued frames. -/
theorem sendFrames_eq_enumFrom (rid : String) (start k : Nat) (frames : List (List Nat)) :
    sendFrames rid start k frames =
      (frames.enumFrom k).map (fun p =>
        build_task_request rid p.2 (if p.1 = 0 then .First else .Middle)
          (frameTimestamp start p.1)) := by
  induction frames generalizing k with
  | nil => rfl
  | cons f rest ih => simp [sendFrames, List.enumFrom_cons, ih]

/-- C2: for a session of N ≥ 1 queued frames whose handshake succeeds and
whose timestamp arithmetic does not wrap the 64-bit counter, the transmitted
sequence is exactly StartTask, StartSession, the N TaskRequests (index 0
First, later indices Middle) with derived timestamps
`start_time + index * FRAME_DURATION_MS`, one synthetic Last TaskRequest,
and one FinishSession; the derived timestamps are strictly increasing and
spaced exactly one frame duration apart. -/
theorem claim_C2 (decode : List Nat → Except String ProtoResponse)
    (jp : String → Option JValue) (rid tok did : String) (start : Nat)
    (frames : List (List Nat)) (inbound : List WsItem) (N : Nat)
    (sent : List AsrRequest) (events : List AsrResponse)
    (hN : frames.length = N) (hpos : 1 ≤ N)
    (hbound : start + N * FRAME_DURATION_MS < U64_MOD)
    (hrun : start_realtime decode jp rid tok did start frames inbound = .ok (sent, events)) :
    sent =
      build_start_task rid tok ::
        build_start_session rid tok (SessionConfig.new did) ::
          (frames.enum.map (fun p =>
              build_task_request rid p.2
                (if p.1 = 0 then FrameState.First else FrameState.Middle)
                (start + p.1 * FRAME_DURATION_MS)) ++
            [build_task_request rid (List.replicate 100 0) FrameState.Last
                (start + N * FRAME_DURATION_MS),
              build_finish_session rid tok]) ∧
    (∀ i j, i < j → j ≤ N →
      start + i * FRAME_DURATION_MS < start + j * FRAME_DURATION_MS) ∧
    (∀ i, start + (i + 1) * FRAME_DURATION_MS =
      (start + i * FRAME_DURATION_MS) + FRAME_DURATION_MS) := by
  have hsent : sent =
      [build_start_task rid tok,
        build_start_session rid tok (SessionConfig.new did)] ++
        outboundPump rid tok start frames := by
    unfold start_realtime at hrun
    rcases h1 : handshakeRead decode jp "StartTask" inbound with e | rest1
    · rw [h1] at hrun; cases hrun
    · rw [h1] at hrun
      dsimp only at hrun
      rcases h2 : handshakeRead decode jp "StartSession" rest1 with e | rest2
      · rw [h2] at hrun; cases hrun
      · rw [h2] at hrun
        dsimp only at hrun
        cases hrun
        rfl
  have hlen : frames.length > 0 := by omega
  have hts : ∀ i, i ≤ N → frameTimestamp start i = start + i * FRAME_DURATION_MS := by
    intro i hi
    have : start + i * FRAME_DURATION_MS < U64_MOD := by
      have : i * FRAME_DURATION_MS ≤ N * FRAME_DURATION_MS :=
        Nat.mul_le_mul_right _ hi
      omega
    exact Nat.mod_eq_of_lt this
  refine ⟨?_, ?_, ?_⟩
  · rw [hsent]
    simp only [outboundPump, hlen, if_pos, List.cons_append, List.nil_append]
    rw [sendFrames_eq_enumFrom]
    have hmap :
        (frames.enumFrom 0).map (fun p =>
            build_task_request rid p.2 (if p.1 = 0 then .First else .Middle)
              (frameTimestamp start p.1)) =
          (frames.enumFrom 0).map (fun p =>
            build_task_request rid p.2 (if p.1 = 0 then .First else .Middle)
              (start + p.1 * FRAME_DURATION_MS)) := by
      apply List.map_congr_left
      intro p hp
      have hplt : p.1 < N := by
        have := List.fst_lt_add_of_mem_enumFrom hp
        omega
      rw [hts p.1 (Nat.le_of_lt hplt)]
    rw [hmap, hts frames.length (le_of_eq hN), hN]
    rfl
  · intro i j hij hjN
    have : i * FRAME_DURATION_MS < j * FRAME_DURATION_MS := by
      simp only [FRAME_DURATION_MS]
      omega
    omega
  · intro i
    simp only [FRAME_DURATION_MS]
    ring

/-- Witness for C2 at a one-frame session with a trivially successful
handshake (an already-closed inbound stream lets both waits proceed). -/
theorem claim_C2_witness :
    ([build_start_task "r" "t",
      build_start_session "r" "t" (SessionConfig.new "d"),
      build_task_request "r" [1] .First 0,
      build_task_request "r" (List.replicate 100 0) .Last 20,
      build_finish_session "r" "t"] : List AsrRequest) =
      build_start_task "r" "t" ::
        build_start_session "r" "t" (SessionConfig.new "d") ::
          (([[1]] : List (List Nat)).enum.map (fun p =>
              build_task_request "r" p.2
                (if p.1 = 0 then FrameState.First else FrameState.Middle)
                (0 + p.1 * FRAME_DURATION_MS)) ++
            [build_task_request "r" (List.replicate 100 0) FrameState.Last
                (0 + 1 * FRAME_DURATION_MS),
              build_finish_session "r" "t"]) :=
  (claim_C2 (fun _ => .ok ⟨"TaskStarted", "", ""⟩) (fun _ => none) "r" "t" "d" 0
    [[1]] [] 1 _ [] rfl (by decide) (by norm_num [FRAME_DURATION_MS, U64_MOD]) rfl).1

/-! ### C9 and C10: the frame encoder's input-length contract -/

theorem pcmToSamples_length (l : List Nat) : (pcmToSamples l).length = l.length / 2 := by
  induction l using pcmToSamples.induct with
  | case1 b0 b1 rest ih => simp [pcmToSamples, ih]; omega
  | case2 l h =>
      cases l with
      | nil => simp [pcmToSamples]
      | cons a t =>
          cases t with
          | nil => simp [pcmToSamples]
          | cons b r => exact absurd rfl (h a b r)

/-- A trailing odd byte contributes no sample. -/
theorem pcmToSamples_append_single (l : List Nat) (b : Nat) (h : l.length % 2 = 0) :
    pcmToSamples (l ++ [b]) = pcmToSamples l := by
  induction l using pcmToSamples.induct with
  | case1 b0 b1 rest ih =>
      have : rest.length % 2 = 0 := by simp at h; omega
      simp [pcmToSamples, ih this]
  | case2 l hl =>
      cases l with
      | nil => rfl
      | cons a t =>
          cases t with
          | nil => simp at h
          | cons c r => exact absurd rfl (hl a c r)

/-- C9: an input whose decoded 16-bit sample count is below
`frame_size × channels` is rejected with the insufficient-samples error and
produces no output; the codec is never invoked. -/
theorem claim_C9 (codec : List Int → Except String (List Nat)) (enc : OpusEncoder)
    (pcm : List Nat)
    (h : (pcmToSamples pcm).length < enc.frame_size * enc.channels) :
    OpusEncoder.encode codec enc pcm =
      .error ("Not enough samples: got " ++ toString (pcmToSamples pcm).length ++
        ", expected " ++ toString (enc.frame_size * enc.channels)) := by
  simp [OpusEncoder.encode, h]

/-- Witness for C9: 638 bytes decode to 319 samples where 320 are expected
(16 kHz mono, 20 ms frame); `encode` fails and yields no bytes. -/
theorem claim_C9_witness :
    OpusEncoder.encode (fun _ => .ok []) ⟨16000, 1, 320⟩ (List.replicate 638 0) =
      .error ("Not enough samples: got " ++
        toString (pcmToSamples (List.replicate 638 0)).length ++
        ", expected " ++ toString (320 * 1)) :=
  claim_C9 (fun _ => .ok []) ⟨16000, 1, 320⟩ (List.replicate 638 0)
    (by rw [pcmToSamples_length, List.length_replicate]; show 638 / 2 < 320 * 1; omega)

/-- C10: an input with strictly more decoded samples than
`frame_size × channels` is not rejected — the codec receives exactly the
first `frame_size × channels` samples and the surplus is ignored; and a
trailing odd byte never changes the result. -/
theorem claim_C10 (codec : List Int → Except String (List Nat)) (enc : OpusEncoder)
    (pcm : List Nat) :
    ((pcmToSamples pcm).length > enc.frame_size * enc.channels →
      ∀ out, codec ((pcmToSamples pcm).take (enc.frame_size * enc.channels)) = .ok out →
        OpusEncoder.encode codec enc pcm = .ok out) ∧
    (pcm.length % 2 = 0 → ∀ b,
      OpusEncoder.encode codec enc (pcm ++ [b]) = OpusEncoder.encode codec enc pcm) := by
  constructor
  · intro hgt out hout
    have hnot : ¬(pcmToSamples pcm).length < enc.frame_size * enc.channels := by omega
    simp [OpusEncoder.encode, hnot, hout]
  · intro heven b
    simp [OpusEncoder.encode, pcmToSamples_append_single pcm b heven]

/-- Witness for C10: six bytes give three samples where two are expected;
the codec sees only the first two samples, and appending a seventh byte
changes nothing. -/
theorem claim_C10_witness :
    OpusEncoder.encode (fun _ => .ok [7]) ⟨16000, 1, 2⟩ [1, 0, 2, 0, 3, 0] = .ok [7] ∧
    OpusEncoder.encode (fun _ => .ok [7]) ⟨16000, 1, 2⟩ ([1, 0, 2, 0, 3, 0] ++ [9]) =
      OpusEncoder.encode (fun _ => .ok [7]) ⟨16000, 1, 2⟩ [1, 0, 2, 0, 3, 0] :=
  ⟨(claim_C10 (fun _ => .ok [7]) ⟨16000, 1, 2⟩ [1, 0, 2, 0, 3, 0]).1
      (by simp [pcmToSamples, i16FromLeBytes]) [7] rfl,
    (claim_C10 (fun _ => .ok [7]) ⟨16000, 1, 2⟩ [1, 0, 2, 0, 3, 0]).2 rfl 9⟩

end DoubaoIme
